import Mathlib

/-!
Verification development for a small Express/Node.js payment backend
(M-Pesa STK Push). The JavaScript source is shallowly embedded:

* JavaScript runtime values that can appear in a parsed JSON request body
  are modelled by `JVal` (numbers as `Rat`; the model has no NaN).
* The process-wide token cache (`this.accessToken` / `this.tokenExpiry`
  in `services/mpesa.service.js`) is an explicit `CacheState` record;
  `Date.now()` readings and the results of the two outbound HTTP calls
  (OAuth token fetch, STK push submission) are passed in as parameters,
  with failures as `Except.error`.
* The two route handlers in `routes/mpesa.routes.js` become pure
  functions from a request body to an HTTP outcome; the outbound STK
  payload actually submitted is returned alongside for inspection.
* `Buffer.from(..).toString(base64)` is an injective encoding whose
  exact output never matters to any property here; it is kept abstract
  as a function field `b64` of the configuration.
-/

/-- A JavaScript value as it can appear in an `express.json()`-parsed
request body: `null`, `undefined` (missing field), booleans, numbers
(modelled as `Rat`; no NaN), strings, arrays and objects (opaque, since
the code never reads into them). -/
inductive JVal where
  | vnull
  | vundefined
  | vbool (b : Bool)
  | vnum (q : Rat)
  | vstr (s : String)
  | varr
  | vobj
  deriving DecidableEq, Repr

/-- JavaScript truthiness test (`!v` is `jsFalsy v`): `null`,
`undefined`, `false`, `0` and the empty string are falsy; arrays and
objects are always truthy. -/
def jsFalsy : JVal → Bool
  | .vnull => true
  | .vundefined => true
  | .vbool b => !b
  | .vnum q => decide (q = 0)
  | .vstr s => decide (s = "")
  | .varr => false
  | .vobj => false

/-- Test `typeof v === 'number'`. -/
def isNum : JVal → Bool
  | .vnum _ => true
  | _ => false

/-- Test `typeof v === 'string'`. -/
def isStr : JVal → Bool
  | .vstr _ => true
  | _ => false

/-- Test `typeof v === 'object'`: true for objects and arrays, and for
`null` (a JavaScript quirk). -/
def typeofObject : JVal → Bool
  | .vnull => true
  | .varr => true
  | .vobj => true
  | _ => false

/-- Numeric content of a `JVal` (only consulted after an `isNum` guard). -/
def asNum : JVal → Rat
  | .vnum q => q
  | _ => 0

/-- String content of a `JVal` (only consulted after an `isStr` guard). -/
def asStr : JVal → String
  | .vstr s => s
  | _ => ""

/-! ## Phone normalizer — `utils/phoneFormatter.js` -/

/-- Digit stripping, `phoneNumber.replace(/\D/g, "")`, on the character list: keep only
the decimal digits. -/
def cleanDigits (l : List Char) : List Char :=
  l.filter (fun c => c.isDigit)

/-- The three-way shape dispatch of `normalizePhoneNumber`
(lines 22-37): leading-zero 10-digit, already-prefixed 12-digit,
bare 9-digit starting with 7; anything else is invalid. -/
def stepShapes (cleaned : List Char) : Option (List Char) :=
  if cleaned.head? = some '0' ∧ cleaned.length = 10 then
    some (['2', '5', '4'] ++ cleaned.tail)
  else if cleaned.take 3 = ['2', '5', '4'] ∧ cleaned.length = 12 then
    some cleaned
  else if cleaned.head? = some '7' ∧ cleaned.length = 9 then
    some (['2', '5', '4'] ++ cleaned)
  else
    none

/-- Final validation of `normalizePhoneNumber` (lines 40-44): the
result must be 12 characters long and begin with 254 (an invalid shape
has already returned null, which propagates). -/
def finalCheck (c : Option (List Char)) : Option (List Char) :=
  c.bind fun l =>
    if l.length = 12 ∧ l.take 3 = ['2', '5', '4'] then some l else none

/-- Digit-level composition of strip, dispatch and final check. -/
def normalizeDigitsList (cleaned : List Char) : Option (List Char) :=
  finalCheck (stepShapes cleaned)

/-- Function `normalizePhoneNumber` from `utils/phoneFormatter.js`, over any
JavaScript value: the guard `!phoneNumber || typeof phoneNumber !==
'string'` rejects every non-string and the empty string; then the digit
pipeline runs on the string content. -/
def normalizePhoneNumber (v : JVal) : Option String :=
  match v with
  | .vstr s =>
      if s = "" then none
      else
        match normalizeDigitsList (cleanDigits s.toList) with
        | some l => some (String.mk l)
        | none => none
  | _ => none

/-! ## Token cache — `MpesaService.getAccessToken` in `services/mpesa.service.js` -/

deriving instance DecidableEq for Except

/-- The two instance fields of the service singleton:
`this.accessToken` (initially `null`) and `this.tokenExpiry`
(initially `null`, later a millisecond timestamp). -/
structure CacheState where
  accessToken : Option String
  tokenExpiry : Option Int
  deriving DecidableEq, Repr

/-- JavaScript truthiness of a nullable string: non-null and non-empty. -/
def truthyStrOpt : Option String → Bool
  | none => false
  | some s => !(decide (s = ""))

/-- JavaScript truthiness of a nullable number: non-null and non-zero. -/
def truthyIntOpt : Option Int → Bool
  | none => false
  | some n => !(decide (n = 0))

/-- The cache-hit condition of `getAccessToken` (line 27):
`this.accessToken && this.tokenExpiry && Date.now() < this.tokenExpiry`. -/
def tokenCacheValid (st : CacheState) (now : Int) : Bool :=
  truthyStrOpt st.accessToken && truthyIntOpt st.tokenExpiry &&
    decide (now < st.tokenExpiry.getD 0)

/-- Body of a successful OAuth token response: `response.data` with its
`access_token` and `expires_in` (seconds) fields. -/
structure TokenFetchResp where
  access_token : String
  expires_in : Int
  deriving DecidableEq, Repr

/-- Message of the error thrown by `getAccessToken` on any failure. -/
def authErrorMsg : String := "Unable to authenticate with M-Pesa API"

/-- Method `MpesaService.getAccessToken`. Here `now` is the `Date.now()` reading in
the cache-hit check, `fetchTime` the (slightly later) reading used when
storing the new expiry; `fetch` is the outcome of the `axios.get` OAuth
call. Returns the thrown-or-returned result, the cache state after the
call, and how many token fetches were performed (0 or 1). A cache hit
returns the cached token untouched; otherwise the fetch runs, a success
caches the new token with expiry `fetchTime + (expires_in - 300) *
1000`, and a failure is rethrown as the generic auth error (the `catch`
block), leaving the cache as it was. -/
def getAccessToken (st : CacheState) (now fetchTime : Int)
    (fetch : Except Unit TokenFetchResp) :
    Except String String × CacheState × Nat :=
  if tokenCacheValid st now then
    (Except.ok (st.accessToken.getD ""), st, 0)
  else
    match fetch with
    | .error _ => (Except.error authErrorMsg, st, 1)
    | .ok r =>
        (Except.ok r.access_token,
         ⟨some r.access_token, some (fetchTime + (r.expires_in - 300) * 1000)⟩, 1)

/-! ## STK push service — `MpesaService.initiateSTKPush` -/

/-- The environment-variable configuration the service reads, plus the
base64 encoder (`Buffer.from(..).toString(base64)`), kept abstract. -/
structure Config where
  shortcode : String
  passkey : String
  callbackUrl : String
  b64 : String → String

/-- Body of a successful STK push response: `response.data` as the
route reads it. -/
structure RemoteData where
  MerchantRequestID : String
  CheckoutRequestID : String
  ResponseCode : String
  ResponseDescription : String
  CustomerMessage : String
  deriving DecidableEq, Repr

/-- The JSON payload `initiateSTKPush` posts to
`/mpesa/stkpush/v1/processrequest`. -/
structure StkPayload where
  BusinessShortCode : String
  Password : String
  Timestamp : String
  TransactionType : String
  Amount : Rat
  PartyA : String
  PartyB : String
  PhoneNumber : String
  CallBackURL : String
  AccountReference : String
  TransactionDesc : String
  deriving DecidableEq, Repr

/-- Everything ambient to one request: configuration, the cache state at
entry, the two clock readings, the token-fetch outcome, the timestamp
string derived from `new Date()`, and the STK submission outcome. -/
structure ServiceEnv where
  cfg : Config
  cache : CacheState
  now : Int
  fetchTime : Int
  tokenFetch : Except Unit TokenFetchResp
  timestamp : String
  remote : Except Unit RemoteData

/-- Message of the error thrown by `initiateSTKPush` on any failure. -/
def stkPushFailMsg : String := "Failed to initiate STK Push transaction"

/-- The payload construction of `initiateSTKPush` (lines 81-93); the
password is the base64 encoding of shortcode ++ passkey ++ timestamp. -/
def mkPayload (env : ServiceEnv) (amount : Rat)
    (phoneNumber accountReference transactionDesc : String) : StkPayload :=
  { BusinessShortCode := env.cfg.shortcode
    Password := env.cfg.b64 (env.cfg.shortcode ++ env.cfg.passkey ++ env.timestamp)
    Timestamp := env.timestamp
    TransactionType := "CustomerPayBillOnline"
    Amount := amount
    PartyA := phoneNumber
    PartyB := env.cfg.shortcode
    PhoneNumber := phoneNumber
    CallBackURL := env.cfg.callbackUrl
    AccountReference := accountReference
    TransactionDesc := transactionDesc }

/-- Method `MpesaService.initiateSTKPush`: get a token (possibly from cache),
build the payload, submit it; any error along the way is caught and
rethrown as the generic STK failure. Returns the result, the cache
state after the call, and the payload that was submitted (`none` when
the token step already failed, so no payload was ever built). The
bearer token itself only travels in the HTTP header, which no claim
inspects. -/
def initiateSTKPush (env : ServiceEnv) (amount : Rat)
    (phoneNumber accountReference transactionDesc : String) :
    Except String RemoteData × CacheState × Option StkPayload :=
  match getAccessToken env.cache env.now env.fetchTime env.tokenFetch with
  | (Except.error _, st1, _) => (Except.error stkPushFailMsg, st1, none)
  | (Except.ok _, st1, _) =>
      let payload := mkPayload env amount phoneNumber accountReference transactionDesc
      match env.remote with
      | Except.error _ => (Except.error stkPushFailMsg, st1, some payload)
      | Except.ok d => (Except.ok d, st1, some payload)

/-! ## Routes — `routes/mpesa.routes.js` -/

/-- The five characters removed by the sanitization regex
`[<>"'&]` (codes 34 and 39 are the double and single quote). -/
def injectionChar (c : Char) : Bool :=
  c = '<' || c = '>' || c = Char.ofNat 34 || c = Char.ofNat 39 || c = '&'

/-- Sanitization `s.replace(/[<>"'&]/g, "")`: delete exactly those characters. -/
def sanitize (s : String) : String :=
  String.mk (s.toList.filter (fun c => !(injectionChar c)))

/-- Success body of the stk-push route: the five fields it copies out
of the remote response data. -/
structure SuccessBody where
  merchantRequestId : String
  checkoutRequestId : String
  responseCode : String
  responseDescription : String
  customerMessage : String
  deriving DecidableEq, Repr

/-- HTTP outcome of the stk-push route: 200 with the success body,
400 with an error message, or 500 with an error message. -/
inductive RouteResult where
  | okSuccess (body : SuccessBody)
  | badRequest (error : String)
  | serverError (error : String)
  deriving DecidableEq, Repr

/-- The four request-body fields the stk-push route destructures. -/
structure StkRequest where
  amount : JVal
  phoneNumber : JVal
  accountReference : JVal
  transactionDesc : JVal
  deriving DecidableEq, Repr

def invalidAmountMsg : String :=
  "Invalid amount. Must be a positive number not exceeding KES 150,000."

def phoneRequiredMsg : String := "Phone number is required."

def invalidPhoneMsg : String :=
  "Invalid phone number format. Must be a valid Kenyan mobile number."

def invalidAccountRefMsg : String :=
  "Invalid account reference. Must be a non-empty string (max 20 characters)."

def invalidDescMsg : String :=
  "Invalid transaction description. Must be a non-empty string (max 100 characters)."

def routeServerErrorMsg : String :=
  "Unable to process payment request. Please try again later."

/-- Route `POST /api/mpesa/stk-push`: the validation guards in source order,
then sanitization, then the service call; a service error is caught and
answered with a generic 500. The second component is the submitted
payload (for inspection), passed through from `initiateSTKPush`. -/
def stkPushRoute (env : ServiceEnv) (req : StkRequest) :
    RouteResult × Option StkPayload :=
  if jsFalsy req.amount || !(isNum req.amount) || decide (asNum req.amount ≤ 0)
      || decide (asNum req.amount > 150000) then
    (.badRequest invalidAmountMsg, none)
  else if jsFalsy req.phoneNumber || !(isStr req.phoneNumber) then
    (.badRequest phoneRequiredMsg, none)
  else
    match normalizePhoneNumber req.phoneNumber with
    | none => (.badRequest invalidPhoneMsg, none)
    | some normalizedPhone =>
      if jsFalsy req.accountReference || !(isStr req.accountReference)
          || decide ((asStr req.accountReference).length > 20) then
        (.badRequest invalidAccountRefMsg, none)
      else if jsFalsy req.transactionDesc || !(isStr req.transactionDesc)
          || decide ((asStr req.transactionDesc).length > 100) then
        (.badRequest invalidDescMsg, none)
      else
        match initiateSTKPush env (asNum req.amount) normalizedPhone
            (sanitize (asStr req.accountReference))
            (sanitize (asStr req.transactionDesc)) with
        | (Except.ok d, _, p) =>
            (.okSuccess ⟨d.MerchantRequestID, d.CheckoutRequestID, d.ResponseCode,
                         d.ResponseDescription, d.CustomerMessage⟩, p)
        | (Except.error _, _, p) => (.serverError routeServerErrorMsg, p)

/-! ## Callback route — `MpesaService.handleCallback` and `POST /callback` -/

/-- The `{success, message}` record `handleCallback` returns and the
callback route echoes. -/
structure CallbackResult where
  success : Bool
  message : String
  deriving DecidableEq, Repr

def callbackInvalidMsg : String := "Invalid callback data structure"

def callbackOkMsg : String := "Callback processed successfully"

/-- Method `MpesaService.handleCallback`: reject `!callbackData || typeof
callbackData !== 'object'` with a failure record, otherwise acknowledge.
The sandbox-only `console.log` has no observable effect on the result
and nothing in the `try` block can throw, so the `catch` arm is dead. -/
def handleCallback (callbackData : JVal) : CallbackResult :=
  if jsFalsy callbackData || !(typeofObject callbackData) then
    ⟨false, callbackInvalidMsg⟩
  else
    ⟨true, callbackOkMsg⟩

/-- Route `POST /api/mpesa/callback`: whatever `handleCallback` reports, the
HTTP status is 200 (M-Pesa requirement); the body carries the flag and
message through. -/
def callbackRoute (body : JVal) : Nat × CallbackResult :=
  let result := handleCallback body
  if result.success then
    (200, ⟨true, result.message⟩)
  else
    (200, ⟨false, result.message⟩)

/-! ## Validity predicates (negations of the route guards) -/

/-- The amount guard passes: truthy, a number, positive, at most the
150,000 ceiling. -/
def amountValid (v : JVal) : Bool :=
  !(jsFalsy v || !(isNum v) || decide (asNum v ≤ 0) || decide (asNum v > 150000))

/-- The phone-presence guard passes: a truthy string. -/
def phoneFieldValid (v : JVal) : Bool :=
  !(jsFalsy v || !(isStr v))

/-- The account-reference guard passes: truthy string of at most 20
characters. -/
def accountRefValid (v : JVal) : Bool :=
  !(jsFalsy v || !(isStr v) || decide ((asStr v).length > 20))

/-- The transaction-description guard passes: truthy string of at most
100 characters. -/
def descFieldValid (v : JVal) : Bool :=
  !(jsFalsy v || !(isStr v) || decide ((asStr v).length > 100))

/-- All five validation steps of the stk-push route pass (the phone
field is present and also normalizes). -/
def requestValid (req : StkRequest) : Bool :=
  amountValid req.amount && phoneFieldValid req.phoneNumber &&
    (normalizePhoneNumber req.phoneNumber).isSome &&
    accountRefValid req.accountReference && descFieldValid req.transactionDesc

/-- Whether an `Except` is a success. -/
def exceptOk {ε α : Type} : Except ε α → Bool
  | .ok _ => true
  | .error _ => false

/-- The token step of the service succeeds under this environment
(cache hit, or miss with a successful fetch). -/
def tokenFetchOk (env : ServiceEnv) : Bool :=
  exceptOk (getAccessToken env.cache env.now env.fetchTime env.tokenFetch).1

/-! ## Concrete fixtures used by the witnesses -/

/-- A concrete configuration; the abstract base64 encoder is
instantiated with the identity, which the claims never constrain. -/
def testCfg : Config :=
  ⟨"174379", "key", "https://example.com/callback", fun s => s⟩

def testRemoteData : RemoteData :=
  ⟨"29115-34620561-1", "ws_CO_191220191020363925", "0",
   "Success. Request accepted for processing", "Success"⟩

/-- Fresh cache, clock at 0/5, successful token fetch and successful
remote submission. -/
def testEnv : ServiceEnv :=
  ⟨testCfg, ⟨none, none⟩, 0, 5, .ok ⟨"token123", 3600⟩, "20240101120000",
   .ok testRemoteData⟩

def goodReq : StkRequest :=
  ⟨.vnum 100, .vstr "0712345678", .vstr "ORDER123", .vstr "Payment for order"⟩

def badAmountReq : StkRequest :=
  ⟨.vnum 0, .vstr "0712345678", .vstr "ORDER123", .vstr "Payment for order"⟩

/-- A request whose reference and description contain characters from
the sanitization set. -/
def injReq : StkRequest :=
  ⟨.vnum 100, .vstr "0712345678", .vstr "OR<DER>1", .vstr "Pay & go"⟩

/-- The payload the route submits for `injReq` under `testEnv`
(reference and description already sanitized). -/
def injPayload : StkPayload :=
  ⟨"174379", "174379key20240101120000", "20240101120000",
   "CustomerPayBillOnline", 100, "254712345678", "174379", "254712345678",
   "https://example.com/callback", "ORDER1", "Pay  go"⟩

/-! ## Lemmas about the phone normalizer -/

lemma take_three_cons (a b c : Char) (l : List Char) :
    (a :: b :: c :: l).take 3 = [a, b, c] := rfl

lemma stepShapes_leadingZero {d : List Char}
    (hh : d.head? = some '0') (hl : d.length = 10) :
    stepShapes d = some (['2', '5', '4'] ++ d.tail) := by
  unfold stepShapes
  rw [if_pos ⟨hh, hl⟩]

lemma take_three_of_prefixed {d : List Char}
    (ht : d.take 3 = ['2', '5', '4']) :
    ∃ rest, d = '2' :: '5' :: '4' :: rest := by
  cases d with
  | nil => simp at ht
  | cons a t =>
    cases t with
    | nil => simp [List.take] at ht
    | cons b t2 =>
      cases t2 with
      | nil => simp [List.take] at ht
      | cons c t3 =>
        rw [take_three_cons] at ht
        obtain ⟨ha, hb, hc⟩ : a = '2' ∧ b = '5' ∧ c = '4' := by simpa using ht
        exact ⟨t3, by rw [ha, hb, hc]⟩

lemma stepShapes_prefixed {d : List Char}
    (ht : d.take 3 = ['2', '5', '4']) (hl : d.length = 12) :
    stepShapes d = some d := by
  obtain ⟨rest, hrest⟩ := take_three_of_prefixed ht
  unfold stepShapes
  rw [if_neg fun ⟨hcontra, _⟩ => by
        rw [hrest] at hcontra; simp at hcontra,
      if_pos ⟨ht, hl⟩]

lemma stepShapes_bare {d : List Char}
    (hh : d.head? = some '7') (hl : d.length = 9) :
    stepShapes d = some (['2', '5', '4'] ++ d) := by
  unfold stepShapes
  rw [if_neg fun ⟨_, hc⟩ => by omega,
      if_neg fun ⟨_, hc⟩ => by omega,
      if_pos ⟨hh, hl⟩]

lemma normalizeDigitsList_leadingZero {d : List Char}
    (hh : d.head? = some '0') (hl : d.length = 10) :
    normalizeDigitsList d = some (['2', '5', '4'] ++ d.tail) := by
  unfold normalizeDigitsList
  rw [stepShapes_leadingZero hh hl]
  simp only [finalCheck, Option.some_bind]
  rw [if_pos ⟨by simp [List.length_tail, hl], take_three_cons '2' '5' '4' d.tail⟩]

lemma normalizeDigitsList_prefixed {d : List Char}
    (ht : d.take 3 = ['2', '5', '4']) (hl : d.length = 12) :
    normalizeDigitsList d = some d := by
  unfold normalizeDigitsList
  rw [stepShapes_prefixed ht hl]
  simp only [finalCheck, Option.some_bind]
  rw [if_pos ⟨hl, ht⟩]

lemma normalizeDigitsList_bare {d : List Char}
    (hh : d.head? = some '7') (hl : d.length = 9) :
    normalizeDigitsList d = some (['2', '5', '4'] ++ d) := by
  unfold normalizeDigitsList
  rw [stepShapes_bare hh hl]
  simp only [finalCheck, Option.some_bind]
  rw [if_pos ⟨by simp [hl], take_three_cons '2' '5' '4' d⟩]

lemma normalizeDigitsList_noShape {d : List Char}
    (h1 : ¬(d.head? = some '0' ∧ d.length = 10))
    (h2 : ¬(d.take 3 = ['2', '5', '4'] ∧ d.length = 12))
    (h3 : ¬(d.head? = some '7' ∧ d.length = 9)) :
    normalizeDigitsList d = none := by
  unfold normalizeDigitsList stepShapes
  rw [if_neg h1, if_neg h2, if_neg h3]
  rfl

/-- When the digit content is nonempty, the input string is nonempty,
so the truthiness guard passes and the digit pipeline decides. -/
lemma normalizePhoneNumber_vstr {s : String}
    (h : cleanDigits s.toList ≠ []) :
    normalizePhoneNumber (.vstr s) =
      match normalizeDigitsList (cleanDigits s.toList) with
      | some l => some (String.mk l)
      | none => none := by
  have hs : s ≠ "" := by
    intro he
    exact h (by rw [he]; rfl)
  simp [normalizePhoneNumber, hs]

lemma normalizeDigitsList_sound {d out : List Char}
    (h : normalizeDigitsList d = some out) :
    out.length = 12 ∧ out.take 3 = ['2', '5', '4'] ∧
      ∀ c ∈ out, c ∈ d ∨ c ∈ (['2', '5', '4'] : List Char) := by
  unfold normalizeDigitsList at h
  cases hs : stepShapes d with
  | none => rw [hs] at h; simp [finalCheck] at h
  | some c =>
    rw [hs] at h
    simp only [finalCheck, Option.some_bind] at h
    by_cases hc : c.length = 12 ∧ c.take 3 = ['2', '5', '4']
    · rw [if_pos hc] at h
      injection h with h
      subst h
      refine ⟨hc.1, hc.2, ?_⟩
      intro x hx
      unfold stepShapes at hs
      split_ifs at hs with g1 g2 g3
      · injection hs with hs
        subst hs
        rcases List.mem_append.mp hx with hx | hx
        · exact Or.inr hx
        · exact Or.inl (List.mem_of_mem_tail hx)
      · injection hs with hs
        subst hs
        exact Or.inl hx
      · injection hs with hs
        subst hs
        rcases List.mem_append.mp hx with hx | hx
        · exact Or.inr hx
        · exact Or.inl hx
    · rw [if_neg hc] at h
      cases h

lemma cleanDigits_all_digits {l : List Char} :
    ∀ c ∈ cleanDigits l, c.isDigit = true := by
  intro c hc
  exact (List.mem_filter.mp hc).2

/-! ## Claims about the phone normalizer -/

/-- Claim C2: for every input string whose digit content matches one of
the three recognized shapes (leading-zero 10-digit, 254-prefixed
12-digit, bare 9-digit subscriber number starting with 7),
`normalizePhoneNumber` returns the canonical 254-prefixed 12-digit
form; in particular the three example inputs all map to
`254712345678`. -/
theorem spec_c2_normalizer_canonical :
    (∀ (s : String) (d : List Char), d = cleanDigits s.toList →
      (d.head? = some '0' ∧ d.length = 10 →
        normalizePhoneNumber (.vstr s) = some (String.mk (['2', '5', '4'] ++ d.tail))) ∧
      (d.take 3 = ['2', '5', '4'] ∧ d.length = 12 →
        normalizePhoneNumber (.vstr s) = some (String.mk d)) ∧
      (d.head? = some '7' ∧ d.length = 9 →
        normalizePhoneNumber (.vstr s) = some (String.mk (['2', '5', '4'] ++ d)))) ∧
    normalizePhoneNumber (.vstr "0712345678") = some "254712345678" ∧
    normalizePhoneNumber (.vstr "712345678") = some "254712345678" ∧
    normalizePhoneNumber (.vstr "254712345678") = some "254712345678" := by
  refine ⟨?_, by decide, by decide, by decide⟩
  intro s d hd
  refine ⟨fun ⟨hh, hl⟩ => ?_, fun ⟨ht, hl⟩ => ?_, fun ⟨hh, hl⟩ => ?_⟩ <;>
    subst hd
  · rw [normalizePhoneNumber_vstr (by intro he; rw [he] at hl; simp at hl),
      normalizeDigitsList_leadingZero hh hl]
  · rw [normalizePhoneNumber_vstr (by intro he; rw [he] at hl; simp at hl),
      normalizeDigitsList_prefixed ht hl]
  · rw [normalizePhoneNumber_vstr (by intro he; rw [he] at hl; simp at hl),
      normalizeDigitsList_bare hh hl]

/-- Claim C2 witness: the leading-zero branch applied to a concrete
string with separator characters. -/
theorem spec_c2_witness :
    normalizePhoneNumber (.vstr "0712 345 678") = some "254712345678" := by
  have h := ((spec_c2_normalizer_canonical.1 "0712 345 678"
      (cleanDigits "0712 345 678".toList) rfl).1 (by decide))
  exact h.trans (by decide)

/-- Claim C3 counterexample: the string `0712-345-678` contains
non-numeric content (the dash), yet `normalizePhoneNumber` maps it to a
valid number rather than to invalid, because the code strips non-digit
characters before checking the shape. -/
theorem spec_c3_counterexample :
    normalizePhoneNumber (.vstr "0712-345-678") = some "254712345678" ∧
    '-' ∈ "0712-345-678".toList ∧ '-'.isDigit = false ∧
    normalizePhoneNumber (.vstr "0712-345-678") ≠ none := by decide

/-- Claim C3 (amended): for every input string whose digit content
(after stripping all non-digit characters) matches none of the three
recognized shapes, `normalizePhoneNumber` returns invalid (`none`);
non-numeric characters themselves are stripped, not grounds for
rejection. -/
theorem spec_c3_normalizer_rejection (s : String) (d : List Char)
    (hd : d = cleanDigits s.toList)
    (h1 : ¬(d.head? = some '0' ∧ d.length = 10))
    (h2 : ¬(d.take 3 = ['2', '5', '4'] ∧ d.length = 12))
    (h3 : ¬(d.head? = some '7' ∧ d.length = 9)) :
    normalizePhoneNumber (.vstr s) = none := by
  subst hd
  by_cases hs : s = ""
  · subst hs; rfl
  · simp only [normalizePhoneNumber, if_neg hs]
    rw [normalizeDigitsList_noShape h1 h2 h3]

/-- Claim C3 witness: a wrong-length all-digit string and a
letters-only string are both rejected. -/
theorem spec_c3_witness :
    normalizePhoneNumber (.vstr "12345") = none ∧
    normalizePhoneNumber (.vstr "hello") = none := by
  constructor
  · exact spec_c3_normalizer_rejection "12345" (cleanDigits "12345".toList) rfl
      (by decide) (by decide) (by decide)
  · exact spec_c3_normalizer_rejection "hello" (cleanDigits "hello".toList) rfl
      (by decide) (by decide) (by decide)

/-- Claim C8: for every JavaScript value whatsoever (strings, `null`,
`undefined`, numbers, booleans, arrays, objects), `normalizePhoneNumber`
returns either `none` or a string of exactly 12 digit characters
beginning with 254; being a total Lean function, it never throws. -/
theorem spec_c8_normalizer_invariant (v : JVal) :
    normalizePhoneNumber v = none ∨
    ∃ out : String, normalizePhoneNumber v = some out ∧
      out.length = 12 ∧ out.toList.take 3 = ['2', '5', '4'] ∧
      ∀ c ∈ out.toList, c.isDigit = true := by
  cases v with
  | vstr s =>
    by_cases hs : s = ""
    · subst hs; exact Or.inl rfl
    · cases hn : normalizeDigitsList (cleanDigits s.toList) with
      | none =>
        refine Or.inl ?_
        simp only [normalizePhoneNumber, if_neg hs]
        rw [hn]
      | some l =>
        have heval : normalizePhoneNumber (.vstr s) = some (String.mk l) := by
          simp only [normalizePhoneNumber, if_neg hs]
          rw [hn]
        refine Or.inr ⟨String.mk l, heval, ?_, ?_, ?_⟩
        · exact (normalizeDigitsList_sound hn).1
        · exact (normalizeDigitsList_sound hn).2.1
        · intro c hc
          have hmem := (normalizeDigitsList_sound hn).2.2 c hc
          rcases hmem with hmem | hmem
          · exact cleanDigits_all_digits c hmem
          · have : c = '2' ∨ c = '5' ∨ c = '4' := by simpa using hmem
            rcases this with rfl | rfl | rfl <;> rfl
  | vnull => exact Or.inl rfl
  | vundefined => exact Or.inl rfl
  | vbool b => exact Or.inl rfl
  | vnum q => exact Or.inl rfl
  | varr => exact Or.inl rfl
  | vobj => exact Or.inl rfl

/-! ## Lemmas about the token cache -/

lemma tokenCacheValid_hit {st : CacheState} {t : String} {e : Int} {now : Int}
    (ha : st.accessToken = some t) (ht : t ≠ "") (he : st.tokenExpiry = some e)
    (hn0 : 0 ≤ now) (hlt : now < e) :
    tokenCacheValid st now = true := by
  have he0 : ¬(e = 0) := by omega
  simp [tokenCacheValid, truthyStrOpt, truthyIntOpt, ha, he, ht, he0, hlt]

lemma tokenCacheValid_miss {st : CacheState} {now : Int}
    (h : st.accessToken = none ∨ st.tokenExpiry = none ∨
      ∃ e0, st.tokenExpiry = some e0 ∧ e0 ≤ now) :
    tokenCacheValid st now = false := by
  rcases h with h | h | ⟨e0, he, hle⟩
  · simp [tokenCacheValid, truthyStrOpt, h]
  · simp [tokenCacheValid, truthyIntOpt, h]
  · have : ¬(now < e0) := by omega
    simp [tokenCacheValid, he, this]

lemma getAccessToken_hit {st : CacheState} {t : String} {e : Int} {now : Int}
    (fetchTime : Int) (f : Except Unit TokenFetchResp)
    (ha : st.accessToken = some t) (ht : t ≠ "") (he : st.tokenExpiry = some e)
    (hn0 : 0 ≤ now) (hlt : now < e) :
    getAccessToken st now fetchTime f = (Except.ok t, st, 0) := by
  simp [getAccessToken, tokenCacheValid_hit ha ht he hn0 hlt, ha]

lemma getAccessToken_refetch {st : CacheState} {now : Int}
    (fetchTime : Int) {r : TokenFetchResp}
    (hmiss : st.accessToken = none ∨ st.tokenExpiry = none ∨
      ∃ e0, st.tokenExpiry = some e0 ∧ e0 ≤ now) :
    getAccessToken st now fetchTime (.ok r) =
      (Except.ok r.access_token,
       ⟨some r.access_token, some (fetchTime + (r.expires_in - 300) * 1000)⟩, 1) := by
  simp [getAccessToken, tokenCacheValid_miss hmiss]

/-! ## Claims about the token cache -/

/-- Claim C1: the four facets of the token cache. (1) With a cached
(non-empty) token whose stored expiry lies ahead of the (non-negative)
current time, `getAccessToken` returns exactly the cached token,
performs no fetch, and leaves the cache untouched. (2) With no cached
token, no stored expiry, or a stored expiry at or before the current
time, it performs exactly one fetch and, on success, caches the new
token with expiry `fetchTime + (expires_in - 300) * 1000` milliseconds,
i.e. the fetch time plus the reported validity minus the 300-second
safety margin. (3) A second call within the cached validity window
reuses the same cached value with no fetch, and (4) a second call at or
after the stored expiry performs exactly one refetch. -/
theorem spec_c1_token_cache (st : CacheState)
    (now fetchTime now2 fetchTime2 : Int)
    (f f2 : Except Unit TokenFetchResp) (t : String) (e : Int)
    (r : TokenFetchResp) :
    (st.accessToken = some t → t ≠ "" → st.tokenExpiry = some e →
      0 ≤ now → now < e →
      getAccessToken st now fetchTime f = (Except.ok t, st, 0)) ∧
    ((st.accessToken = none ∨ st.tokenExpiry = none ∨
        ∃ e0, st.tokenExpiry = some e0 ∧ e0 ≤ now) → f = .ok r →
      getAccessToken st now fetchTime f =
        (Except.ok r.access_token,
         ⟨some r.access_token, some (fetchTime + (r.expires_in - 300) * 1000)⟩, 1)) ∧
    (f = .ok r → r.access_token ≠ "" → st.accessToken = none →
      0 ≤ now2 → now2 < fetchTime + (r.expires_in - 300) * 1000 →
      getAccessToken (getAccessToken st now fetchTime f).2.1 now2 fetchTime2 f2 =
        (Except.ok r.access_token, (getAccessToken st now fetchTime f).2.1, 0)) ∧
    (f = .ok r → st.accessToken = none →
      fetchTime + (r.expires_in - 300) * 1000 ≤ now2 →
      (getAccessToken (getAccessToken st now fetchTime f).2.1 now2 fetchTime2 f2).2.2 = 1) := by
  refine ⟨?_, ?_, ?_, ?_⟩
  · intro ha ht he hn0 hlt
    exact getAccessToken_hit fetchTime f ha ht he hn0 hlt
  · intro hmiss hf
    subst hf
    exact getAccessToken_refetch fetchTime hmiss
  · intro hf hne hnone hn0 hlt
    subst hf
    rw [getAccessToken_refetch fetchTime (Or.inl hnone)]
    exact getAccessToken_hit fetchTime2 f2 rfl hne rfl hn0 hlt
  · intro hf hnone hge
    subst hf
    rw [getAccessToken_refetch fetchTime (Or.inl hnone)]
    dsimp only
    unfold getAccessToken
    rw [tokenCacheValid_miss
          (Or.inr (Or.inr ⟨fetchTime + (r.expires_in - 300) * 1000, rfl, hge⟩))]
    cases f2 <;> rfl

/-- Claim C1 witness: a concrete cache hit reuses the cached token with
no fetch, and a concrete miss fetches once and stores the margin-
adjusted expiry. -/
theorem spec_c1_witness :
    getAccessToken ⟨some "tok", some 1000⟩ 500 501 (.error ()) =
      (Except.ok "tok", ⟨some "tok", some 1000⟩, 0) ∧
    getAccessToken ⟨none, none⟩ 0 7 (.ok ⟨"t2", 3600⟩) =
      (Except.ok "t2", ⟨some "t2", some 3300007⟩, 1) := by
  constructor
  · exact (spec_c1_token_cache ⟨some "tok", some 1000⟩ 500 501 0 0
      (.error ()) (.error ()) "tok" 1000 ⟨"x", 0⟩).1 rfl (by decide) rfl
      (by decide) (by decide)
  · have h := (spec_c1_token_cache ⟨none, none⟩ 0 7 0 0
      (.ok ⟨"t2", 3600⟩) (.error ()) "" 0 ⟨"t2", 3600⟩).2.1 (Or.inl rfl) rfl
    exact h.trans (by decide)

/-- Claim C10: whenever `getAccessToken` fails, the error is the
generic authentication message and the cache fields are exactly what
they were before the call. -/
theorem spec_c10_cache_atomicity (st : CacheState) (now fetchTime : Int)
    (f : Except Unit TokenFetchResp) (e : String)
    (h : (getAccessToken st now fetchTime f).1 = Except.error e) :
    e = authErrorMsg ∧ (getAccessToken st now fetchTime f).2.1 = st := by
  unfold getAccessToken at h ⊢
  by_cases hv : tokenCacheValid st now
  · rw [if_pos hv] at h
    cases h
  · rw [if_neg hv] at h ⊢
    cases f with
    | error u =>
      refine ⟨?_, rfl⟩
      injection h with h
      exact h.symm
    | ok r => cases h

/-- Claim C10 witness: a concrete failing fetch leaves the empty cache
empty and reports the generic message. -/
theorem spec_c10_witness :
    authErrorMsg = authErrorMsg ∧
    (getAccessToken ⟨none, none⟩ 0 0 (.error ())).2.1 =
      (⟨none, none⟩ : CacheState) :=
  spec_c10_cache_atomicity ⟨none, none⟩ 0 0 (.error ()) authErrorMsg (by decide)

/-! ## Lemmas about the stk-push route and service -/

lemma bool_eq_false {b : Bool} (h : ¬(b = true)) : b = false := by
  cases b
  · rfl
  · exact absurd rfl h

/-- A valid request drives the route to the service call on the
normalized phone and the sanitized reference and description. -/
lemma stkPushRoute_valid {env : ServiceEnv} {req : StkRequest}
    (h : requestValid req = true) :
    ∃ np, normalizePhoneNumber req.phoneNumber = some np ∧
      stkPushRoute env req =
        (match initiateSTKPush env (asNum req.amount) np
            (sanitize (asStr req.accountReference))
            (sanitize (asStr req.transactionDesc)) with
          | (Except.ok d, _, p) =>
              (.okSuccess ⟨d.MerchantRequestID, d.CheckoutRequestID, d.ResponseCode,
                           d.ResponseDescription, d.CustomerMessage⟩, p)
          | (Except.error _, _, p) => (.serverError routeServerErrorMsg, p)) := by
  simp only [requestValid, Bool.and_eq_true] at h
  obtain ⟨⟨⟨⟨h1, h2⟩, h3⟩, h4⟩, h5⟩ := h
  simp only [amountValid, Bool.not_eq_true', Bool.or_eq_false_iff] at h1
  obtain ⟨⟨⟨ha1, ha2⟩, ha3⟩, ha4⟩ := h1
  simp only [phoneFieldValid, Bool.not_eq_true', Bool.or_eq_false_iff] at h2
  obtain ⟨hp1, hp2⟩ := h2
  simp only [accountRefValid, Bool.not_eq_true', Bool.or_eq_false_iff] at h4
  obtain ⟨⟨hr1, hr2⟩, hr3⟩ := h4
  simp only [descFieldValid, Bool.not_eq_true', Bool.or_eq_false_iff] at h5
  obtain ⟨⟨hd1, hd2⟩, hd3⟩ := h5
  obtain ⟨np, hnp⟩ := Option.isSome_iff_exists.mp h3
  refine ⟨np, hnp, ?_⟩
  simp [stkPushRoute, ha1, ha2, ha3, ha4, hp1, hp2, hr1, hr2, hr3, hd1, hd2, hd3, hnp]

/-- With the token step succeeding and the remote call succeeding, the
service returns the remote body and the payload it built. -/
lemma initiateSTKPush_ok {env : ServiceEnv} {d : RemoteData}
    (htok : tokenFetchOk env = true) (hrem : env.remote = .ok d)
    (amount : Rat) (ph ref ds : String) :
    initiateSTKPush env amount ph ref ds =
      (Except.ok d,
       (getAccessToken env.cache env.now env.fetchTime env.tokenFetch).2.1,
       some (mkPayload env amount ph ref ds)) := by
  unfold tokenFetchOk at htok
  unfold initiateSTKPush
  rcases hg : getAccessToken env.cache env.now env.fetchTime env.tokenFetch with
    ⟨res, st1, n⟩
  rw [hg] at htok
  cases res with
  | error e => simp [exceptOk] at htok
  | ok tk => rw [hrem]

/-- With the token step failing or the remote call failing, the service
fails with the generic STK error. -/
lemma initiateSTKPush_err {env : ServiceEnv}
    (hfail : tokenFetchOk env = false ∨ env.remote = .error ())
    (amount : Rat) (ph ref ds : String) :
    (initiateSTKPush env amount ph ref ds).1 = Except.error stkPushFailMsg := by
  unfold initiateSTKPush
  rcases hg : getAccessToken env.cache env.now env.fetchTime env.tokenFetch with
    ⟨res, st1, n⟩
  cases res with
  | error e => rfl
  | ok tk =>
    rcases hfail with hfail | hfail
    · unfold tokenFetchOk at hfail
      rw [hg] at hfail
      simp [exceptOk] at hfail
    · rw [hfail]

/-- Whatever payload the service reports having submitted is the one
`mkPayload` builds from its own arguments. -/
lemma initiateSTKPush_payload {env : ServiceEnv} {amount : Rat}
    {ph ref ds : String} {res : Except String RemoteData} {st1 : CacheState}
    {p : StkPayload}
    (h : initiateSTKPush env amount ph ref ds = (res, st1, some p)) :
    p = mkPayload env amount ph ref ds := by
  unfold initiateSTKPush at h
  rcases hg : getAccessToken env.cache env.now env.fetchTime env.tokenFetch with
    ⟨tokres, stx, n⟩
  rw [hg] at h
  cases tokres with
  | error e => simp at h
  | ok tk =>
    cases hr : env.remote with
    | error u =>
      rw [hr] at h
      simp at h
      exact h.2.2.symm
    | ok d =>
      rw [hr] at h
      simp at h
      exact h.2.2.symm

/-- Sanitized strings contain none of the five injection characters. -/
lemma sanitize_no_injection (s : String) :
    ∀ c ∈ (sanitize s).toList, injectionChar c = false := by
  intro c hc
  have hmem : c ∈ s.toList.filter (fun c => !(injectionChar c)) := by
    simpa [sanitize] using hc
  have := (List.mem_filter.mp hmem).2
  simpa using this

/-! ## Claims about the routes -/

/-- Claim C4: the stk-push route answers 400 with the amount message
for every request whose amount is zero, negative, above the 150,000
ceiling, or not a number at all; and it never gives the amount
rejection to a request whose amount is a positive number at most the
ceiling. -/
theorem spec_c4_amount_validation (env : ServiceEnv) (req : StkRequest) :
    ((∀ a : Rat, req.amount = .vnum a → a ≤ 0 ∨ a > 150000) →
      (stkPushRoute env req).1 = .badRequest invalidAmountMsg) ∧
    (∀ a : Rat, req.amount = .vnum a → 0 < a → a ≤ 150000 →
      (stkPushRoute env req).1 ≠ .badRequest invalidAmountMsg) := by
  constructor
  · intro h
    have g1 : (jsFalsy req.amount || !(isNum req.amount) ||
        decide (asNum req.amount ≤ 0) || decide (asNum req.amount > 150000)) = true := by
      rcases hq : req.amount with _ | _ | b | a | s | _ | _
      · simp [hq, jsFalsy]
      · simp [hq, jsFalsy]
      · simp [hq, isNum]
      · rcases h a hq with hle | hgt
        · simp [hq, isNum, asNum, hle]
        · simp [hq, isNum, asNum, hgt]
      · simp [hq, isNum]
      · simp [hq, isNum]
      · simp [hq, isNum]
    unfold stkPushRoute
    rw [if_pos g1]
  · intro a hq h0 h150
    have hne : ¬(a = 0) := ne_of_gt h0
    have hnle : ¬(a ≤ 0) := not_le.mpr h0
    have hngt : ¬(a > 150000) := not_lt.mpr h150
    have g1 : (jsFalsy req.amount || !(isNum req.amount) ||
        decide (asNum req.amount ≤ 0) || decide (asNum req.amount > 150000)) = false := by
      simp [hq, jsFalsy, isNum, asNum, hne, hnle, hngt]
    unfold stkPushRoute
    rw [if_neg (by simp [g1])]
    split
    · decide
    · split
      · decide
      · split
        · decide
        · split
          · decide
          · split
            · simp
            · simp

/-- Claim C4 witness: a zero amount is rejected with the amount
message; a 100-shilling amount is not. -/
theorem spec_c4_witness :
    (stkPushRoute testEnv badAmountReq).1 = .badRequest invalidAmountMsg ∧
    (stkPushRoute testEnv goodReq).1 ≠ .badRequest invalidAmountMsg := by
  constructor
  · refine (spec_c4_amount_validation testEnv badAmountReq).1 ?_
    intro a ha
    have ha0 : a = 0 := by
      have : JVal.vnum 0 = JVal.vnum a := ha
      injection this with h
      exact h.symm
    subst ha0
    exact Or.inl (by norm_num)
  · exact (spec_c4_amount_validation testEnv goodReq).2 100 rfl (by norm_num) (by norm_num)

/-- Claim C5: response taxonomy of the stk-push route. A request
failing validation gets a 400 with one of the five descriptive
messages; a valid request with a successful token step and remote call
gets the 200 success payload; a valid request whose token step or
remote call fails gets the generic 500; and every response is one of
these three shapes. -/
theorem spec_c5_response_taxonomy (env : ServiceEnv) (req : StkRequest) :
    (requestValid req = false →
      ∃ msg, (stkPushRoute env req).1 = .badRequest msg ∧
        (msg = invalidAmountMsg ∨ msg = phoneRequiredMsg ∨ msg = invalidPhoneMsg ∨
         msg = invalidAccountRefMsg ∨ msg = invalidDescMsg)) ∧
    (requestValid req = true → ∀ d, tokenFetchOk env = true → env.remote = .ok d →
      (stkPushRoute env req).1 =
        .okSuccess ⟨d.MerchantRequestID, d.CheckoutRequestID, d.ResponseCode,
                    d.ResponseDescription, d.CustomerMessage⟩) ∧
    (requestValid req = true →
      (tokenFetchOk env = false ∨ env.remote = .error ()) →
      (stkPushRoute env req).1 = .serverError routeServerErrorMsg) ∧
    ((∃ b, (stkPushRoute env req).1 = .okSuccess b) ∨
     (∃ msg, (stkPushRoute env req).1 = .badRequest msg) ∨
     (stkPushRoute env req).1 = .serverError routeServerErrorMsg) := by
  have big1 : requestValid req = false →
      ∃ msg, (stkPushRoute env req).1 = .badRequest msg ∧
        (msg = invalidAmountMsg ∨ msg = phoneRequiredMsg ∨ msg = invalidPhoneMsg ∨
         msg = invalidAccountRefMsg ∨ msg = invalidDescMsg) := by
    intro hinv
    by_cases g1 : (jsFalsy req.amount || !(isNum req.amount) ||
        decide (asNum req.amount ≤ 0) || decide (asNum req.amount > 150000)) = true
    · exact ⟨invalidAmountMsg, by unfold stkPushRoute; rw [if_pos g1], Or.inl rfl⟩
    · by_cases g2 : (jsFalsy req.phoneNumber || !(isStr req.phoneNumber)) = true
      · exact ⟨phoneRequiredMsg, by unfold stkPushRoute; rw [if_neg g1, if_pos g2],
          Or.inr (Or.inl rfl)⟩
      · cases hnp : normalizePhoneNumber req.phoneNumber with
        | none =>
          refine ⟨invalidPhoneMsg, ?_, Or.inr (Or.inr (Or.inl rfl))⟩
          unfold stkPushRoute
          rw [if_neg g1, if_neg g2, hnp]
        | some np =>
          by_cases g4 : (jsFalsy req.accountReference || !(isStr req.accountReference) ||
              decide ((asStr req.accountReference).length > 20)) = true
          · refine ⟨invalidAccountRefMsg, ?_, Or.inr (Or.inr (Or.inr (Or.inl rfl)))⟩
            unfold stkPushRoute
            rw [if_neg g1, if_neg g2, hnp]
            dsimp only
            rw [if_pos g4]
          · by_cases g5 : (jsFalsy req.transactionDesc || !(isStr req.transactionDesc) ||
                decide ((asStr req.transactionDesc).length > 100)) = true
            · refine ⟨invalidDescMsg, ?_, Or.inr (Or.inr (Or.inr (Or.inr rfl)))⟩
              unfold stkPushRoute
              rw [if_neg g1, if_neg g2, hnp]
              dsimp only
              rw [if_neg g4, if_pos g5]
            · exfalso
              have hv : requestValid req = true := by
                simp [requestValid, amountValid, phoneFieldValid, accountRefValid,
                  descFieldValid, hnp, bool_eq_false g1, bool_eq_false g2,
                  bool_eq_false g4, bool_eq_false g5]
              rw [hinv] at hv
              cases hv
  refine ⟨big1, ?_, ?_, ?_⟩
  · intro hval d htok hrem
    obtain ⟨np, hnp, heq⟩ := @stkPushRoute_valid env req hval
    rw [heq, initiateSTKPush_ok htok hrem]
  · intro hval hfail
    obtain ⟨np, hnp, heq⟩ := @stkPushRoute_valid env req hval
    rw [heq]
    rcases hs : initiateSTKPush env (asNum req.amount) np
        (sanitize (asStr req.accountReference))
        (sanitize (asStr req.transactionDesc)) with ⟨res, st1, p⟩
    have hres : res = Except.error stkPushFailMsg := by
      have herr := initiateSTKPush_err hfail (asNum req.amount) np
        (sanitize (asStr req.accountReference)) (sanitize (asStr req.transactionDesc))
      rw [hs] at herr
      exact herr
    subst hres
    rfl
  · by_cases hval : requestValid req = true
    · obtain ⟨np, hnp, heq⟩ := @stkPushRoute_valid env req hval
      rw [heq]
      rcases hs : initiateSTKPush env (asNum req.amount) np
          (sanitize (asStr req.accountReference))
          (sanitize (asStr req.transactionDesc)) with ⟨res, st1, p⟩
      cases res with
      | ok d =>
        exact Or.inl ⟨⟨d.MerchantRequestID, d.CheckoutRequestID, d.ResponseCode,
          d.ResponseDescription, d.CustomerMessage⟩, rfl⟩
      | error e => exact Or.inr (Or.inr rfl)
    · obtain ⟨msg, hmsg, _⟩ := big1 (bool_eq_false hval)
      exact Or.inr (Or.inl ⟨msg, hmsg⟩)

/-- Claim C5 witness: a concrete invalid request gets one of the five
400 messages, and a concrete valid request under a successful
environment gets the mapped 200 payload. -/
theorem spec_c5_witness :
    (∃ msg, (stkPushRoute testEnv badAmountReq).1 = .badRequest msg ∧
      (msg = invalidAmountMsg ∨ msg = phoneRequiredMsg ∨ msg = invalidPhoneMsg ∨
       msg = invalidAccountRefMsg ∨ msg = invalidDescMsg)) ∧
    (stkPushRoute testEnv goodReq).1 =
      .okSuccess ⟨testRemoteData.MerchantRequestID, testRemoteData.CheckoutRequestID,
                  testRemoteData.ResponseCode, testRemoteData.ResponseDescription,
                  testRemoteData.CustomerMessage⟩ := by
  constructor
  · exact (spec_c5_response_taxonomy testEnv badAmountReq).1 (by decide)
  · exact (spec_c5_response_taxonomy testEnv goodReq).2.1 (by decide)
      testRemoteData (by decide) rfl

/-- Claim C6: the callback endpoint answers HTTP 200 for every payload,
with a `{success, message}` body that is one of the two fixed records;
malformed payloads (null or non-object, including strings, numbers,
booleans and undefined) get the failure flag; and the success flag is
exactly truthiness-and-objectness of the payload. The route and
`handleCallback` are total functions, so no input can raise. -/
theorem spec_c6_callback_acceptor (v : JVal) :
    (callbackRoute v).1 = 200 ∧
    ((callbackRoute v).2 = ⟨true, callbackOkMsg⟩ ∨
     (callbackRoute v).2 = ⟨false, callbackInvalidMsg⟩) ∧
    (v = .vnull ∨ typeofObject v = false → (callbackRoute v).2.success = false) ∧
    (callbackRoute v).2.success = (!(jsFalsy v) && typeofObject v) := by
  cases v <;> simp [callbackRoute, handleCallback, jsFalsy, typeofObject]

/-- Claim C6 witness: the null payload is acknowledged with 200 and the
failure flag. -/
theorem spec_c6_witness :
    (callbackRoute .vnull).1 = 200 ∧ (callbackRoute .vnull).2.success = false :=
  ⟨(spec_c6_callback_acceptor .vnull).1,
   (spec_c6_callback_acceptor .vnull).2.2.1 (Or.inl rfl)⟩

/-- Claim C7: for a request passing validation, when the token step and
the remote submission succeed with body `d`, the service returns `d`
unmodified (whatever arguments it was given), and the route answers 200
with the five request identifiers of `d` echoed unchanged into the
success payload. -/
theorem spec_c7_end_to_end (env : ServiceEnv) (req : StkRequest) (d : RemoteData)
    (hval : requestValid req = true) (htok : tokenFetchOk env = true)
    (hrem : env.remote = .ok d) :
    (∀ (a : Rat) (ph ref ds : String),
        (initiateSTKPush env a ph ref ds).1 = Except.ok d) ∧
    (stkPushRoute env req).1 =
      .okSuccess ⟨d.MerchantRequestID, d.CheckoutRequestID, d.ResponseCode,
                  d.ResponseDescription, d.CustomerMessage⟩ := by
  constructor
  · intro a ph ref ds
    rw [initiateSTKPush_ok htok hrem]
  · obtain ⟨np, hnp, heq⟩ := @stkPushRoute_valid env req hval
    rw [heq, initiateSTKPush_ok htok hrem]

/-- Claim C7 witness: the fixture request under the fixture environment
yields 200 with the fixture identifiers echoed. -/
theorem spec_c7_witness :
    (stkPushRoute testEnv goodReq).1 =
      .okSuccess ⟨testRemoteData.MerchantRequestID, testRemoteData.CheckoutRequestID,
                  testRemoteData.ResponseCode, testRemoteData.ResponseDescription,
                  testRemoteData.CustomerMessage⟩ :=
  (spec_c7_end_to_end testEnv goodReq testRemoteData (by decide) (by decide) rfl).2

/-- Claim C9: whenever the stk-push route submits a payload, its
`AccountReference` and `TransactionDesc` are the request strings with
every occurrence of the five characters of the sanitization set
deleted (and nothing else changed), so neither field contains any of
those characters. -/
theorem spec_c9_sanitization (env : ServiceEnv) (req : StkRequest) (p : StkPayload)
    (h : (stkPushRoute env req).2 = some p) :
    p.AccountReference = sanitize (asStr req.accountReference) ∧
    p.TransactionDesc = sanitize (asStr req.transactionDesc) ∧
    (∀ c ∈ p.AccountReference.toList, injectionChar c = false) ∧
    (∀ c ∈ p.TransactionDesc.toList, injectionChar c = false) ∧
    sanitize (asStr req.accountReference) =
      String.mk ((asStr req.accountReference).toList.filter fun c => !(injectionChar c)) ∧
    sanitize (asStr req.transactionDesc) =
      String.mk ((asStr req.transactionDesc).toList.filter fun c => !(injectionChar c)) := by
  unfold stkPushRoute at h
  by_cases g1 : (jsFalsy req.amount || !(isNum req.amount) ||
      decide (asNum req.amount ≤ 0) || decide (asNum req.amount > 150000)) = true
  · rw [if_pos g1] at h
    simp at h
  · rw [if_neg g1] at h
    by_cases g2 : (jsFalsy req.phoneNumber || !(isStr req.phoneNumber)) = true
    · rw [if_pos g2] at h
      simp at h
    · rw [if_neg g2] at h
      cases hnp : normalizePhoneNumber req.phoneNumber with
      | none =>
        rw [hnp] at h
        simp at h
      | some np =>
        rw [hnp] at h
        dsimp only at h
        by_cases g4 : (jsFalsy req.accountReference || !(isStr req.accountReference) ||
            decide ((asStr req.accountReference).length > 20)) = true
        · rw [if_pos g4] at h
          simp at h
        · rw [if_neg g4] at h
          by_cases g5 : (jsFalsy req.transactionDesc || !(isStr req.transactionDesc) ||
              decide ((asStr req.transactionDesc).length > 100)) = true
          · rw [if_pos g5] at h
            simp at h
          · rw [if_neg g5] at h
            rcases hs : initiateSTKPush env (asNum req.amount) np
                (sanitize (asStr req.accountReference))
                (sanitize (asStr req.transactionDesc)) with ⟨res, st1, pp⟩
            rw [hs] at h
            cases res with
            | ok d =>
              have hpp : pp = some p := h
              rw [hpp] at hs
              have hp := initiateSTKPush_payload hs
              subst hp
              exact ⟨rfl, rfl, sanitize_no_injection _, sanitize_no_injection _, rfl, rfl⟩
            | error e =>
              have hpp : pp = some p := h
              rw [hpp] at hs
              have hp := initiateSTKPush_payload hs
              subst hp
              exact ⟨rfl, rfl, sanitize_no_injection _, sanitize_no_injection _, rfl, rfl⟩

/-- Claim C9 witness: the fixture request with injection characters in
its reference and description yields exactly the sanitized payload. -/
theorem spec_c9_witness :
    (stkPushRoute testEnv injReq).2 = some injPayload ∧
    injPayload.AccountReference = "ORDER1" ∧
    injPayload.TransactionDesc = "Pay  go" ∧
    (∀ c ∈ injPayload.AccountReference.toList, injectionChar c = false) := by
  refine ⟨by decide, ?_, by decide, ?_⟩
  · exact ((spec_c9_sanitization testEnv injReq injPayload (by decide)).1).trans (by decide)
  · exact (spec_c9_sanitization testEnv injReq injPayload (by decide)).2.2.1
